import Mathlib

/-!
Shallow embedding of the `adspower_rpa` package (checker.py, client.py,
scenarios.py, models.py) and proofs of the specification claims about it.

Python values reaching the interpreter functions are JSON-like dynamic
values; they are embedded as the inductive `PyVal`.  Python floats are
embedded as rationals: the only float behaviour any claim depends on is
the zero test of `bool(value)` and `str()` rendering of values other than
containers, and no claim evaluates a float rendering.  Python dicts are
embedded as association lists with first-match lookup (Python dict keys
are unique, so this is faithful).

The asyncio orchestration (`AuthorizationChecker.run`) is embedded two
ways: directly, using the documented order-determinism of
`asyncio.gather` (results come back in task-creation order); and via an
explicit completion-schedule model in which an arbitrary permutation of
job indices fills an indexed result buffer, which is how the semaphore-
gated fan-out actually behaves.  Wall-clock timestamps (`started_at`,
`finished_at`) are real-time observations and are left out of the
embedded result record; no claim below mentions them.
-/

namespace RPADiscord

/-- Embedded Python/JSON dynamic value. -/
inductive PyVal where
  | none : PyVal
  | bool : Bool → PyVal
  | int : Int → PyVal
  | float : Rat → PyVal
  | str : String → PyVal
  | list : List PyVal → PyVal
  | dict : List (String × PyVal) → PyVal

/-- Python dict embedded as an association list (keys unique in Python,
so first-match lookup is faithful). -/
abbrev Dict := List (String × PyVal)

/-- Python `d.get(key)`: the value bound to `key`, or absent. -/
def dictGet : Dict → String → Option PyVal
  | [], _ => Option.none
  | (k, v) :: rest, key => if k = key then Option.some v else dictGet rest key

/-- Whether a value is a Python mapping (`isinstance(v, dict)`). -/
def PyVal.isDict : PyVal → Bool
  | .dict _ => true
  | _ => false

/-- Python type name of an embedded value, as `type(v).__name__`. -/
def pyTypeName : PyVal → String
  | .none => "NoneType"
  | .bool _ => "bool"
  | .int _ => "int"
  | .float _ => "float"
  | .str _ => "str"
  | .list _ => "list"
  | .dict _ => "dict"

/-- Python `str()` on an embedded value.  `None`, booleans, integers and
strings follow CPython exactly; float and container renderings are
abstracted placeholders (no claim evaluates them, and a container
rendering is never whitespace-only in CPython, which the placeholders
preserve). -/
def pyStr : PyVal → String
  | .none => "None"
  | .bool true => "True"
  | .bool false => "False"
  | .int n => toString n
  | .float q => toString q
  | .str s => s
  | .list _ => "[...]"
  | .dict _ => "\x7b...\x7d"

/-- Python `value.strip()`: drop whitespace from both ends.  Embedded
structurally over the character list so that it evaluates on concrete
inputs. -/
def pyStrip (s : String) : String :=
  ⟨((s.data.dropWhile Char.isWhitespace).reverse.dropWhile Char.isWhitespace).reverse⟩

/-- Python `value.lower()`: lowercase every character. -/
def pyLower (s : String) : String :=
  ⟨s.data.map Char.toLower⟩

/-- checker.py `_extract_variables(response)`.  The source evaluates
`response.get("data", \x7b\x7d).get("variables")`: when the value under
`"data"` is not a mapping the attribute access `.get` raises
`AttributeError`, embedded here as the `Except.error` branch. -/
def extract_variables (response : Dict) : Except String Dict :=
  match (dictGet response "data").getD (.dict []) with
  | .dict d =>
    match dictGet d "variables" with
    | Option.some (.dict vs) => Except.ok vs
    | _ =>
      match dictGet response "variables" with
      | Option.some (.dict vs) => Except.ok vs
      | _ => Except.ok []
  | other =>
    Except.error ("AttributeError: " ++ pyTypeName other ++ " object has no attribute get")

/-- checker.py `_parse_bool(value)`. -/
def parse_bool (value : PyVal) : Bool :=
  match value with
  | .bool b => b
  | .str s => pyLower (pyStrip s) ∈ ["1", "true", "yes", "y"]
  | .int n => decide (n ≠ 0)
  | .float q => decide (q ≠ 0)
  | _ => false

/-- checker.py `_coerce_optional_str(value)`. -/
def coerce_optional_str (value : PyVal) : Option String :=
  match value with
  | .none => Option.none
  | v =>
    let text := pyStrip (pyStr v)
    if text = "" then Option.none else Option.some text

/-- config.py `ProfileConfig`: the fields the checker reads. -/
structure ProfileConfig where
  id : String
  label : Option String

/-- models.py `AuthorizationDetails`. -/
structure AuthorizationDetails where
  authorized : Bool
  display_name : Option String
  profile_serial : Option String
  raw_variables : Dict

/-- models.py `ProfileCheckResult`.  The wall-clock fields `started_at`
and `finished_at` are real-time observations and are not embedded. -/
structure ProfileCheckResult where
  profile_id : String
  label : Option String
  success : Bool
  details : Option AuthorizationDetails
  error : Option String
  raw_response : Dict

/-- Behaviour of `AdsPowerClient.run_automation` as seen by the checker:
given the profile id and the scenario step payload it either returns a
raw response mapping or raises, embedded as an error message string
(`str(exc)` of whatever exception propagated — it may be empty, e.g. an
httpx timeout whose message is the empty string). -/
abbrev Gateway := String → List PyVal → Except String Dict

/-- checker.py `AuthorizationChecker` state after `__init__`: the client
is represented by its `run_automation` behaviour, the scenario by its
`to_payload()` value. -/
structure AuthorizationChecker where
  gateway : Gateway
  scenario_payload : List PyVal
  profiles : List ProfileConfig
  concurrency : Int

/-- checker.py `AuthorizationChecker.__init__`: stores the collaborators
and clamps the concurrency with `max(1, concurrency)`. -/
def AuthorizationChecker.init (gateway : Gateway) (scenario_payload : List PyVal)
    (profiles : List ProfileConfig) (concurrency : Int) : AuthorizationChecker :=
  { gateway := gateway
    scenario_payload := scenario_payload
    profiles := profiles
    concurrency := max 1 concurrency }

/-- checker.py `AuthorizationChecker._run_single`: one job.  The `try`
block catches every exception from the gateway call and from
`_extract_variables`; `raw_response` keeps its initial `\x7b\x7d` when
the gateway call itself raised, and keeps the returned response when the
interpreter raised afterwards.  (`AuthorizationDetails` construction and
the coercion helpers are total and cannot raise.) -/
def run_single (gateway : Gateway) (scenario_payload : List PyVal)
    (profile : ProfileConfig) : ProfileCheckResult :=
  match gateway profile.id scenario_payload with
  | Except.error e =>
    { profile_id := profile.id
      label := profile.label
      success := false
      details := Option.none
      error := Option.some e
      raw_response := [] }
  | Except.ok raw =>
    match extract_variables raw with
    | Except.error e =>
      { profile_id := profile.id
        label := profile.label
        success := false
        details := Option.none
        error := Option.some e
        raw_response := raw }
    | Except.ok vars =>
      { profile_id := profile.id
        label := profile.label
        success := true
        details := Option.some
          { authorized := parse_bool ((dictGet vars "service_authorized").getD .none)
            display_name :=
              coerce_optional_str ((dictGet vars "service_display_name").getD .none)
            profile_serial :=
              coerce_optional_str ((dictGet vars "profile_serial").getD .none)
            raw_variables := vars }
        error := Option.none
        raw_response := raw }

/-- checker.py `AuthorizationChecker.run`: one task per profile, gathered
with `asyncio.gather`, which returns the results in task-creation order
(the input profile order), independent of completion order. -/
def AuthorizationChecker.run (c : AuthorizationChecker) : List ProfileCheckResult :=
  c.profiles.map (run_single c.gateway c.scenario_payload)

/-- Completion-schedule model of the semaphore-gated gather: the jobs
complete in some order (a permutation of the job indices — whichever
interleavings the semaphore admits are all permutations), and each
completion writes its own slot of an indexed result buffer. -/
def gatherFill (f : Nat → ProfileCheckResult) :
    List Nat → List (Option ProfileCheckResult) → List (Option ProfileCheckResult)
  | [], buf => buf
  | i :: rest, buf => gatherFill f rest (buf.set i (Option.some (f i)))

/-- Result of `run()` under an explicit completion schedule `order`. -/
def runWithSchedule (c : AuthorizationChecker) (order : List Nat) :
    List (Option ProfileCheckResult) :=
  gatherFill
    (fun i => run_single c.gateway c.scenario_payload (c.profiles.getD i ⟨"", Option.none⟩))
    order (List.replicate c.profiles.length Option.none)

/-- Session state of an `httpx.AsyncClient` as configured by
`AdsPowerClient._get_client` (the network behaviour itself is outside
the state model). -/
structure HttpxSession where
  base_url : String
  bearer : Option String
  timeout : Rat

/-- client.py `AdsPowerClient` mutable state. -/
structure AdsPowerClient where
  base_url : String
  api_key : Option String
  timeout : Rat
  client : Option HttpxSession

/-- client.py `AdsPowerClient.close`: under the lock, if a session
exists it is disposed and the slot cleared; otherwise nothing happens.
The lock serialises close against lazy creation; the state transition
itself is as below. -/
def AdsPowerClient.close (c : AdsPowerClient) : AdsPowerClient :=
  match c.client with
  | Option.some _ => { c with client := Option.none }
  | Option.none => c

/-- client.py `AdsPowerClient.run_automation` request payload: the JSON
body posted to `/api/v1/automation/run`. -/
def run_automation_payload (profile_id : String) (steps : List PyVal) : Dict :=
  [("profile_id", PyVal.str profile_id),
   ("steps", PyVal.list steps),
   ("options", PyVal.dict
     [("fail_on_selector_timeout", PyVal.bool true),
      ("capture_console", PyVal.bool true)])]

/-- scenarios.py `AutomationStep`. -/
structure AutomationStep where
  type : String
  config : Dict

/-- scenarios.py `AutomationStep.to_dict`. -/
def AutomationStep.to_dict (s : AutomationStep) : PyVal :=
  PyVal.dict [("type", PyVal.str s.type), ("config", PyVal.dict s.config)]

/-- scenarios.py `DiscordAuthorizationScenario.to_payload`. -/
def to_payload (steps : List AutomationStep) : List PyVal :=
  steps.map AutomationStep.to_dict

/-- Specification-side definition, following the spec text for
`extractVariables` word for word: look for a variables mapping at
`response.data.variables`; if absent or not a mapping, fall back to a
top-level `response.variables`; if that is also absent or not a mapping,
return an empty mapping. -/
def extractVariablesSpec (response : Dict) : Dict :=
  match (match dictGet response "data" with
         | Option.some (PyVal.dict d) => dictGet d "variables"
         | _ => Option.none) with
  | Option.some (PyVal.dict vs) => vs
  | _ =>
    match dictGet response "variables" with
    | Option.some (PyVal.dict vs) => vs
    | _ => []

/-- Concrete gateway behaviour: the job for profile id p3 raises with
message boom, the job for p2 returns a response on which the interpreter
raises, every other job returns an empty response. -/
def mixedGateway : Gateway :=
  fun pid _ =>
    if pid = "p3" then Except.error "boom"
    else if pid = "p2" then Except.ok [("data", PyVal.int 5)]
    else Except.ok []

/-- Concrete gateway behaviour: every job returns an empty response. -/
def alwaysOk : Gateway :=
  fun _ _ => Except.ok []

/-- Concrete two-profile input list. -/
def twoProfiles : List ProfileConfig :=
  [⟨"p1", Option.none⟩, ⟨"p2", Option.none⟩]

/-- Every branch of `_run_single` copies the profile id into the result. -/
theorem run_single_profile_id (gw : Gateway) (payload : List PyVal) (p : ProfileConfig) :
    (run_single gw payload p).profile_id = p.id := by
  unfold run_single
  split
  · rfl
  · split <;> rfl

/-- When the gateway call raises, `_run_single` builds the failed result
with the exception text and the initial empty raw response. -/
theorem run_single_gateway_error (gw : Gateway) (payload : List PyVal)
    (p : ProfileConfig) (e : String) (h : gw p.id payload = Except.error e) :
    run_single gw payload p =
      { profile_id := p.id, label := p.label, success := false,
        details := Option.none, error := Option.some e, raw_response := [] } := by
  unfold run_single
  rw [h]

/-- When the gateway call returns but `_extract_variables` raises,
`_run_single` builds the failed result with the interpreter exception
text and keeps the returned raw response. -/
theorem run_single_interp_error (gw : Gateway) (payload : List PyVal)
    (p : ProfileConfig) (raw : Dict) (e : String)
    (hok : gw p.id payload = Except.ok raw)
    (hext : extract_variables raw = Except.error e) :
    run_single gw payload p =
      { profile_id := p.id, label := p.label, success := false,
        details := Option.none, error := Option.some e, raw_response := raw } := by
  unfold run_single
  rw [hok]
  simp only [hext]

/-- Filling a buffer slot-by-slot preserves its length. -/
theorem gatherFill_length (f : Nat → ProfileCheckResult) :
    ∀ (order : List Nat) (buf : List (Option ProfileCheckResult)),
      (gatherFill f order buf).length = buf.length := by
  intro order
  induction order with
  | nil => intro buf; rfl
  | cons i rest ih =>
    intro buf
    simp only [gatherFill]
    rw [ih, List.length_set]

/-- Slots whose index is never scheduled are untouched by `gatherFill`. -/
theorem gatherFill_getElem_of_not_mem (f : Nat → ProfileCheckResult) {j : Nat} :
    ∀ (order : List Nat) (buf : List (Option ProfileCheckResult)), j ∉ order →
      (gatherFill f order buf)[j]? = buf[j]? := by
  intro order
  induction order with
  | nil => intro buf _; rfl
  | cons i rest ih =>
    intro buf h
    have hi : i ≠ j := fun he => h (List.mem_cons.mpr (Or.inl he.symm))
    have hr : j ∉ rest := fun hm => h (List.mem_cons.mpr (Or.inr hm))
    simp only [gatherFill]
    rw [ih _ hr, List.getElem?_set_ne hi]

/-- A scheduled slot ends up holding its own job's result, no matter how
often or where in the schedule it appears. -/
theorem gatherFill_getElem_of_mem (f : Nat → ProfileCheckResult) {j : Nat} :
    ∀ (order : List Nat) (buf : List (Option ProfileCheckResult)),
      j ∈ order → j < buf.length →
      (gatherFill f order buf)[j]? = Option.some (Option.some (f j)) := by
  intro order
  induction order with
  | nil => intro buf h _; exact absurd h (List.not_mem_nil j)
  | cons i rest ih =>
    intro buf hmem hlt
    simp only [gatherFill]
    by_cases hr : j ∈ rest
    · exact ih _ hr (by simpa using hlt)
    · have hji : j = i := (List.mem_cons.mp hmem).resolve_right hr
      subst hji
      rw [gatherFill_getElem_of_not_mem f rest _ hr]
      exact List.getElem?_set_self hlt

/-- Any completion schedule that is a permutation of the job indices
fills the whole buffer with the per-index job results. -/
theorem gatherFill_fills (f : Nat → ProfileCheckResult) (n : Nat) (order : List Nat)
    (hperm : order.Perm (List.range n)) :
    gatherFill f order (List.replicate n Option.none)
      = (List.range n).map (fun i => Option.some (f i)) := by
  apply List.ext_getElem?
  intro j
  by_cases hj : j < n
  · rw [gatherFill_getElem_of_mem f order _ (hperm.mem_iff.mpr (List.mem_range.mpr hj))
        (by simpa using hj),
      List.getElem?_map, List.getElem?_range hj]
    rfl
  · have hle : n ≤ j := Nat.le_of_not_lt hj
    rw [List.getElem?_eq_none (by rw [gatherFill_length, List.length_replicate]; exact hle),
      List.getElem?_eq_none (by simpa using hle)]

/-- Reindexing a map over a list through `List.range` and `getD`. -/
theorem range_map_getD (g : ProfileConfig → ProfileCheckResult)
    (l : List ProfileConfig) (d : ProfileConfig) :
    (List.range l.length).map (fun i => Option.some (g (l.getD i d)))
      = l.map (Option.some ∘ g) := by
  apply List.ext_getElem?
  intro j
  rw [List.getElem?_map, List.getElem?_map]
  by_cases hj : j < l.length
  · rw [List.getElem?_range hj, List.getElem?_eq_getElem hj]
    simp only [Option.map, Function.comp]
    rw [List.getD_eq_getElem l d hj]
  · rw [List.getElem?_eq_none (by simpa using Nat.le_of_not_lt hj),
      List.getElem?_eq_none (Nat.le_of_not_lt hj)]
    rfl

/-- Under any completion schedule that is a permutation of the job
indices, the schedule model produces exactly the results of `run()`, in
input order. -/
theorem runWithSchedule_complete (c : AuthorizationChecker) (order : List Nat)
    (hperm : order.Perm (List.range c.profiles.length)) :
    runWithSchedule c order = c.run.map Option.some := by
  rw [runWithSchedule, gatherFill_fills _ _ _ hperm, AuthorizationChecker.run, List.map_map]
  exact range_map_getD (run_single c.gateway c.scenario_payload) c.profiles ⟨"", Option.none⟩

/-- C1: for every input profile list (and any gateway behaviour, scenario
payload and concurrency value), `AuthorizationChecker.run()` returns
exactly one `ProfileCheckResult` per input profile, in input order: the
result list has the same length as the profile list and its sequence of
`profile_id` fields is exactly the sequence of input `id` fields (hence
no duplicates, omissions or reorderings), regardless of how many jobs
fail. -/
theorem checker_run_one_result_per_profile (gw : Gateway) (payload : List PyVal)
    (profiles : List ProfileConfig) (conc : Int) :
    (AuthorizationChecker.init gw payload profiles conc).run.length = profiles.length ∧
    (AuthorizationChecker.init gw payload profiles conc).run.map (fun r => r.profile_id)
      = profiles.map (fun p => p.id) := by
  constructor
  · simp [AuthorizationChecker.run, AuthorizationChecker.init]
  · simp [AuthorizationChecker.run, AuthorizationChecker.init, run_single_profile_id]

/-- C2 (counterexample): `_extract_variables` is not total — on a
response whose data key holds a non-mapping value (here the integer 5)
the attribute access `.get` raises `AttributeError` instead of falling
back to an empty mapping. -/
theorem extract_variables_raises_on_nondict_data :
    extract_variables [("data", PyVal.int 5)]
      = Except.error "AttributeError: int object has no attribute get" := rfl

/-- C2 (amended): whenever the value under the data key is a mapping or
the key is absent, `_extract_variables` never fails and returns exactly
the cascade the spec describes (data.variables if a mapping, else a
top-level variables if a mapping, else the empty mapping); in
particular `extract_variables \x7b\x7d` and
`extract_variables \x7b"data": \x7b\x7d\x7d` return the empty mapping.
When the data key holds a non-mapping value the function instead raises
`AttributeError`. -/
theorem extract_variables_total_on_mapping_data (response : Dict)
    (hdata : ((dictGet response "data").getD (PyVal.dict [])).isDict = true) :
    extract_variables response = Except.ok (extractVariablesSpec response) ∧
    extract_variables [] = Except.ok [] ∧
    extract_variables [("data", PyVal.dict [])] = Except.ok [] := by
  refine ⟨?_, rfl, rfl⟩
  unfold extract_variables extractVariablesSpec
  cases hd : dictGet response "data" with
  | none =>
    simp only [hd, Option.getD]
    cases hv : dictGet response "variables" with
    | none => rfl
    | some v => cases v <;> rfl
  | some dv =>
    cases dv with
    | dict d =>
      simp only [hd, Option.getD]
      cases hv : dictGet d "variables" with
      | none =>
        cases hv2 : dictGet response "variables" with
        | none => rfl
        | some v2 => cases v2 <;> rfl
      | some v =>
        cases v with
        | dict vs => rfl
        | none =>
          cases hv2 : dictGet response "variables" with
          | none => rfl
          | some v2 => cases v2 <;> rfl
        | bool b =>
          cases hv2 : dictGet response "variables" with
          | none => rfl
          | some v2 => cases v2 <;> rfl
        | int n =>
          cases hv2 : dictGet response "variables" with
          | none => rfl
          | some v2 => cases v2 <;> rfl
        | float q =>
          cases hv2 : dictGet response "variables" with
          | none => rfl
          | some v2 => cases v2 <;> rfl
        | str s =>
          cases hv2 : dictGet response "variables" with
          | none => rfl
          | some v2 => cases v2 <;> rfl
        | list l =>
          cases hv2 : dictGet response "variables" with
          | none => rfl
          | some v2 => cases v2 <;> rfl
    | none => simp [hd, PyVal.isDict] at hdata
    | bool b => simp [hd, PyVal.isDict] at hdata
    | int n => simp [hd, PyVal.isDict] at hdata
    | float q => simp [hd, PyVal.isDict] at hdata
    | str s => simp [hd, PyVal.isDict] at hdata
    | list l => simp [hd, PyVal.isDict] at hdata

/-- C2 witness: a response whose data key holds a mapping satisfies the
hypothesis, and the cascade returns the nested variables mapping. -/
theorem extract_variables_total_on_mapping_data_witness :
    ((dictGet [("data", PyVal.dict [("variables", PyVal.dict [("k", PyVal.int 1)])])]
        "data").getD (PyVal.dict [])).isDict = true ∧
    (extract_variables [("data", PyVal.dict [("variables", PyVal.dict [("k", PyVal.int 1)])])]
        = Except.ok (extractVariablesSpec
            [("data", PyVal.dict [("variables", PyVal.dict [("k", PyVal.int 1)])])]) ∧
     extract_variables [] = Except.ok [] ∧
     extract_variables [("data", PyVal.dict [])] = Except.ok []) :=
  ⟨rfl, extract_variables_total_on_mapping_data
    [("data", PyVal.dict [("variables", PyVal.dict [("k", PyVal.int 1)])])] rfl⟩

/-- C3 (counterexample): when the gateway raises an exception whose
textual form is the empty string, the failed result carries
`error = some ""` — present but empty, contradicting "when present,
`error` is a non-empty message". -/
theorem run_single_error_present_but_empty :
    (run_single (fun _ _ => Except.error "") [] ⟨"p1", Option.none⟩).error
        = Option.some "" ∧
    (run_single (fun _ _ => Except.error "") [] ⟨"p1", Option.none⟩).success = false :=
  ⟨rfl, rfl⟩

/-- C3 (amended): in every result produced by a job, `details` is
present exactly when `success` is true and `error` is present exactly
when `success` is false; when present, `error` is the textual form of
the raised exception, which can be empty when the exception stringifies
to the empty string. -/
theorem run_single_details_iff_success (gw : Gateway) (payload : List PyVal)
    (p : ProfileConfig) :
    (run_single gw payload p).details.isSome = (run_single gw payload p).success ∧
    (run_single gw payload p).error.isSome = !(run_single gw payload p).success := by
  unfold run_single
  split
  · exact ⟨rfl, rfl⟩
  · split
    · exact ⟨rfl, rfl⟩
    · exact ⟨rfl, rfl⟩

/-- C4: per-job failure isolation — when the gateway call for profile
`p` raises with message `e`, or the gateway call for profile `pe`
returns a response on which the interpreter raises with message `e2`,
that profile's result is failed with the textual error and absent
details; any profile `q` on whose id the perturbed and unperturbed
gateways agree gets a bit-for-bit identical result; and the run still
returns one result per input profile. -/
theorem run_single_failure_isolated (gw gw2 : Gateway) (payload : List PyVal)
    (profiles : List ProfileConfig) (conc : Int) (p pe q : ProfileConfig)
    (e e2 : String) (raw : Dict)
    (hfail : gw p.id payload = Except.error e)
    (hok : gw pe.id payload = Except.ok raw)
    (hext : extract_variables raw = Except.error e2)
    (hagree : gw q.id payload = gw2 q.id payload) :
    (run_single gw payload p).success = false ∧
    (run_single gw payload p).details = Option.none ∧
    (run_single gw payload p).error = Option.some e ∧
    (run_single gw payload pe).success = false ∧
    (run_single gw payload pe).details = Option.none ∧
    (run_single gw payload pe).error = Option.some e2 ∧
    run_single gw payload q = run_single gw2 payload q ∧
    (AuthorizationChecker.init gw payload profiles conc).run.length = profiles.length := by
  rw [run_single_gateway_error gw payload p e hfail,
    run_single_interp_error gw payload pe raw e2 hok hext]
  refine ⟨rfl, rfl, rfl, rfl, rfl, rfl, ?_, ?_⟩
  · unfold run_single; rw [hagree]
  · simp [AuthorizationChecker.run, AuthorizationChecker.init]

/-- C4 witness: the gateway that raises only for profile id p3 (and
hands the interpreter a poisoned response only for p2) produces failed
results for p3 and p2, and leaves p1's result identical to the one the
never-failing gateway produces. -/
theorem run_single_failure_isolated_witness :
    mixedGateway "p3" [] = Except.error "boom" ∧
    mixedGateway "p2" [] = Except.ok [("data", PyVal.int 5)] ∧
    extract_variables [("data", PyVal.int 5)]
      = Except.error "AttributeError: int object has no attribute get" ∧
    mixedGateway "p1" [] = alwaysOk "p1" [] ∧
    ((run_single mixedGateway [] ⟨"p3", Option.none⟩).success = false ∧
     (run_single mixedGateway [] ⟨"p3", Option.none⟩).details = Option.none ∧
     (run_single mixedGateway [] ⟨"p3", Option.none⟩).error = Option.some "boom" ∧
     (run_single mixedGateway [] ⟨"p2", Option.none⟩).success = false ∧
     (run_single mixedGateway [] ⟨"p2", Option.none⟩).details = Option.none ∧
     (run_single mixedGateway [] ⟨"p2", Option.none⟩).error
       = Option.some "AttributeError: int object has no attribute get" ∧
     run_single mixedGateway [] ⟨"p1", Option.none⟩
       = run_single alwaysOk [] ⟨"p1", Option.none⟩ ∧
     (AuthorizationChecker.init mixedGateway []
        [⟨"p1", Option.none⟩, ⟨"p2", Option.none⟩, ⟨"p3", Option.none⟩] 2).run.length
       = ([⟨"p1", Option.none⟩, ⟨"p2", Option.none⟩, ⟨"p3", Option.none⟩]
            : List ProfileConfig).length) :=
  ⟨rfl, rfl, rfl, rfl, run_single_failure_isolated mixedGateway alwaysOk []
    [⟨"p1", Option.none⟩, ⟨"p2", Option.none⟩, ⟨"p3", Option.none⟩] 2
    ⟨"p3", Option.none⟩ ⟨"p2", Option.none⟩ ⟨"p1", Option.none⟩
    "boom" "AttributeError: int object has no attribute get"
    [("data", PyVal.int 5)] rfl rfl rfl rfl⟩

/-- C5: two-run determinism — for a fixed profile list, scenario payload
and gateway behaviour, any two concurrency limits and any two admissible
completion schedules (each a permutation of the job indices; every
interleaving the semaphore admits completes each job exactly once, so
its completion order is such a permutation) yield identical output
lists, equal to the input-ordered `run()` result; the concurrency limit
never affects the outcome. -/
theorem checker_concurrency_independent (gw : Gateway) (payload : List PyVal)
    (profiles : List ProfileConfig) (c₁ c₂ : Int) (order₁ order₂ : List Nat)
    (h₁ : order₁.Perm (List.range profiles.length))
    (h₂ : order₂.Perm (List.range profiles.length)) :
    runWithSchedule (AuthorizationChecker.init gw payload profiles c₁) order₁
      = runWithSchedule (AuthorizationChecker.init gw payload profiles c₂) order₂ ∧
    runWithSchedule (AuthorizationChecker.init gw payload profiles c₁) order₁
      = (AuthorizationChecker.init gw payload profiles c₁).run.map Option.some ∧
    (AuthorizationChecker.init gw payload profiles c₁).run
      = (AuthorizationChecker.init gw payload profiles c₂).run := by
  have e₁ := runWithSchedule_complete (AuthorizationChecker.init gw payload profiles c₁) order₁ h₁
  have e₂ := runWithSchedule_complete (AuthorizationChecker.init gw payload profiles c₂) order₂ h₂
  refine ⟨?_, e₁, rfl⟩
  rw [e₁, e₂]
  exact rfl

/-- C5 witness: with two profiles, concurrency limits 1 and 4 and the
two completion orders, the outputs coincide. -/
theorem checker_concurrency_independent_witness :
    ([1, 0] : List Nat).Perm (List.range twoProfiles.length) ∧
    ([0, 1] : List Nat).Perm (List.range twoProfiles.length) ∧
    (runWithSchedule (AuthorizationChecker.init alwaysOk [] twoProfiles 1) [1, 0]
       = runWithSchedule (AuthorizationChecker.init alwaysOk [] twoProfiles 4) [0, 1] ∧
     runWithSchedule (AuthorizationChecker.init alwaysOk [] twoProfiles 1) [1, 0]
       = (AuthorizationChecker.init alwaysOk [] twoProfiles 1).run.map Option.some ∧
     (AuthorizationChecker.init alwaysOk [] twoProfiles 1).run
       = (AuthorizationChecker.init alwaysOk [] twoProfiles 4).run) :=
  ⟨by decide, by decide,
   checker_concurrency_independent alwaysOk [] twoProfiles 1 4 [1, 0] [0, 1]
     (by decide) (by decide)⟩

/-- C6: `_parse_bool` is a total function over every embedded value:
booleans pass through, a string is true exactly when its trimmed,
lowercased form is one of 1, true, yes, y, an integer or float is false
exactly when it is zero, and None, lists and mappings are false. -/
theorem parse_bool_total_spec :
    (∀ b : Bool, parse_bool (PyVal.bool b) = b) ∧
    (∀ s : String, parse_bool (PyVal.str s) = true
        ↔ pyLower (pyStrip s) ∈ (["1", "true", "yes", "y"] : List String)) ∧
    (∀ n : Int, parse_bool (PyVal.int n) = false ↔ n = 0) ∧
    (∀ q : Rat, parse_bool (PyVal.float q) = false ↔ q = 0) ∧
    parse_bool PyVal.none = false ∧
    (∀ l : List PyVal, parse_bool (PyVal.list l) = false) ∧
    (∀ d : Dict, parse_bool (PyVal.dict d) = false) := by
  refine ⟨fun b => rfl, fun s => ?_, fun n => ?_, fun q => ?_, rfl, fun l => rfl, fun d => rfl⟩
  · simp [parse_bool]
  · simp [parse_bool]
  · simp [parse_bool]

/-- C7: `_coerce_optional_str` maps None to absent; every other value is
stringified and trimmed, yielding absent exactly when the trimmed text
is empty; in particular whitespace-only text is absent and the integer
42 becomes the text 42. -/
theorem coerce_optional_str_spec (v : PyVal) (hv : v ≠ PyVal.none) :
    coerce_optional_str v
      = (if pyStrip (pyStr v) = "" then Option.none else Option.some (pyStrip (pyStr v))) ∧
    coerce_optional_str PyVal.none = Option.none ∧
    coerce_optional_str (PyVal.str "   ") = Option.none ∧
    coerce_optional_str (PyVal.int 42) = Option.some "42" := by
  refine ⟨?_, rfl, rfl, rfl⟩
  cases v with
  | none => exact absurd rfl hv
  | bool b => rfl
  | int n => rfl
  | float q => rfl
  | str s => rfl
  | list l => rfl
  | dict d => rfl

/-- C7 witness: instantiated at the integer 42. -/
theorem coerce_optional_str_spec_witness :
    (PyVal.int 42 ≠ PyVal.none) ∧
    (coerce_optional_str (PyVal.int 42)
        = (if pyStrip (pyStr (PyVal.int 42)) = ""
           then Option.none else Option.some (pyStrip (pyStr (PyVal.int 42)))) ∧
     coerce_optional_str PyVal.none = Option.none ∧
     coerce_optional_str (PyVal.str "   ") = Option.none ∧
     coerce_optional_str (PyVal.int 42) = Option.some "42") :=
  ⟨nofun, coerce_optional_str_spec (PyVal.int 42) nofun⟩

/-- C8: for every integer concurrency argument, the constructor clamps
the stored limit with max(1, concurrency), so the effective concurrency
is always at least 1. -/
theorem checker_concurrency_at_least_one (gw : Gateway) (payload : List PyVal)
    (profiles : List ProfileConfig) (conc : Int) :
    1 ≤ (AuthorizationChecker.init gw payload profiles conc).concurrency := by
  simp [AuthorizationChecker.init]

/-- C9 (counterexample): the wire envelope does not bind the key
profileId — the profile identifier travels under profile_id, and
likewise the options flags are snake_case. -/
theorem run_automation_payload_key_is_snake_case :
    dictGet (run_automation_payload "p1" []) "profileId" = Option.none ∧
    dictGet (run_automation_payload "p1" []) "profile_id" = Option.some (PyVal.str "p1") ∧
    dictGet (run_automation_payload "p1" []) "failOnSelectorTimeout" = Option.none :=
  ⟨rfl, rfl, rfl⟩

/-- C9 (amended): `run_automation` wraps the caller-supplied steps in
the fixed envelope with keys profile_id (the profile identifier), steps
(the unchanged ordered step list) and options (a static block with
fail_on_selector_timeout and capture_console both true); each scenario
step serialises as a mapping with keys type and config. -/
theorem run_automation_payload_envelope (pid : String) (steps : List PyVal)
    (scn : List AutomationStep) :
    run_automation_payload pid steps
      = [("profile_id", PyVal.str pid),
         ("steps", PyVal.list steps),
         ("options", PyVal.dict [("fail_on_selector_timeout", PyVal.bool true),
                                 ("capture_console", PyVal.bool true)])] ∧
    dictGet (run_automation_payload pid steps) "steps" = Option.some (PyVal.list steps) ∧
    to_payload scn
      = scn.map (fun s => PyVal.dict [("type", PyVal.str s.type),
                                      ("config", PyVal.dict s.config)]) := by
  refine ⟨rfl, rfl, ?_⟩
  simp [to_payload, AutomationStep.to_dict]

/-- C10: `AdsPowerClient.close` is idempotent and safe at any point of
the lifecycle: closing twice equals closing once, after any close no
session is held, the configuration fields are untouched, and closing a
client that never created a session is a no-op. -/
theorem client_close_idempotent (c : AdsPowerClient) (b : String) (k : Option String)
    (t : Rat) :
    AdsPowerClient.close (AdsPowerClient.close c) = AdsPowerClient.close c ∧
    (AdsPowerClient.close c).client = Option.none ∧
    (AdsPowerClient.close c).base_url = c.base_url ∧
    (AdsPowerClient.close c).api_key = c.api_key ∧
    (AdsPowerClient.close c).timeout = c.timeout ∧
    AdsPowerClient.close ⟨b, k, t, Option.none⟩ = ⟨b, k, t, Option.none⟩ := by
  cases c with
  | mk bu ak ti cl => cases cl <;> simp [AdsPowerClient.close]

end RPADiscord
